import Mathlib

/-!
Verification of the NotchPlayer FFmpeg decode core (`src/NotchPlayer/ffdecode.c`).

Shallow embedding: the external demux/decode collaborator (libavformat /
libavcodec / swscale / CoreVideo) is modelled as explicit inputs — the
metadata a successful probe reports, and the sequences of return codes the
collaborator produces for each call the C code makes.  C `double` values
carrying a seconds duration are modelled as `Option ℚ` where `none` stands
for the NaN "unknown" sentinel (the C code only ever compares such values
with `> 0`, where NaN compares false, and only builds them by exact
rational arithmetic on integer metadata).
-/

namespace NotchPlayer

/-- `AVRational`: a rational as a numerator/denominator pair of C ints. -/
structure AVRational where
  num : Int
  den : Int
deriving DecidableEq, Repr

/-- `av_q2d`: rational to double.  (In ℚ, division by zero yields 0 where C
would produce ±inf/NaN; no claim depends on a zero-denominator time base.) -/
def av_q2d (r : AVRational) : ℚ := (r.num : ℚ) / (r.den : ℚ)

/-- `AV_TIME_BASE`: the global time unit (microseconds per second). -/
def AV_TIME_BASE : Int := 1000000

/-- `AV_NOPTS_VALUE` = INT64_MIN, the "unknown timestamp" sentinel. -/
def AV_NOPTS_VALUE : Int := -(2 ^ 63)

/-- A C `double` holding a seconds value: `none` is the NaN sentinel. -/
abbrev FFloat := Option ℚ

/-- `x > 0` on an `FFloat`, with NaN comparing false (as in IEEE). -/
def fpos : FFloat → Bool
  | none => false
  | some q => decide (0 < q)

/-- The `return (dur > 0) ? dur : NAN;` pattern closing every estimator. -/
def posClamp (x : FFloat) : FFloat :=
  if fpos x then x else none

/-- The slice of `AVStream` that `ffdecode.c` reads from the selected video
stream: time base, duration in ticks, frame count, the two frame-rate
rationals, the decoder's canonical name for the stream's codec id
(`avcodec_get_name(codecpar->codec_id)`), and the raw 32-bit container
codec tag (`codecpar->codec_tag`). -/
structure AVStream where
  time_base : AVRational
  duration : Int
  nb_frames : Int
  avg_frame_rate : AVRational
  r_frame_rate : AVRational
  codec_name : String
  codec_tag : Nat
deriving DecidableEq, Repr

/-- The slice of `AVFormatContext` the probe-style functions read:
container duration and bit rate, whether an I/O context (`pb`) exists and
the size it reports (`avio_size`), the stream table, and the result of
`av_find_best_stream(..., AVMEDIA_TYPE_VIDEO, ...)` (negative = none). -/
structure AVFormatContext where
  duration : Int
  bit_rate : Int
  pb : Bool
  pb_size : Int
  streams : List AVStream
  vindex : Int
deriving DecidableEq, Repr

/-- The selected video stream: `fmt->streams[vindex]` when `vindex >= 0`. -/
def best_video (fmt : AVFormatContext) : Option AVStream :=
  if 0 ≤ fmt.vindex then fmt.streams.get? fmt.vindex.toNat else none

/-- What `avformat_open_input` + `avformat_find_stream_info` yield for a
path: the path was NULL, open failed, stream-info failed, or a fully
probed container.  Every probe-style entry point opens and closes its own
source, so one `ProbeResult` models one such call's environment. -/
inductive ProbeResult where
  | nullPath
  | openFail
  | infoFail
  | ok (fmt : AVFormatContext)
deriving DecidableEq, Repr

/-- `AVRational afr = vs->avg_frame_rate.num > 0 ? vs->avg_frame_rate :
vs->r_frame_rate;` — the frame rate the code selects (average preferred
when its numerator is positive, else the real/nominal rate).  This line
appears verbatim in `ff_probe_duration`, `ff_frame_accurate_duration`
and `ff_get_avg_fps`. -/
def chosen_rate (s : AVStream) : AVRational :=
  if s.avg_frame_rate.num > 0 then s.avg_frame_rate else s.r_frame_rate

/-- `double fps = (afr.den > 0) ? (double)afr.num / (double)afr.den : 0.0;`
in `ff_probe_duration`'s tier 3. -/
def probe_fps (s : AVStream) : ℚ :=
  if (chosen_rate s).den > 0 then ((chosen_rate s).num : ℚ) / ((chosen_rate s).den : ℚ) else 0

/-- Tier 1 of `ff_probe_duration` (ffdecode.c:28-30): container duration. -/
def probe_tier1 (fmt : AVFormatContext) : FFloat :=
  if fmt.duration > 0 then some ((fmt.duration : ℚ) / (AV_TIME_BASE : ℚ)) else none

/-- Tier 2 of `ff_probe_duration` (ffdecode.c:37-40): stream duration in
the stream time base, attempted only while `!(dur > 0)`. -/
def probe_tier2 (vs : Option AVStream) (dur : FFloat) : FFloat :=
  if fpos dur = false then
    match vs with
    | some s =>
      if s.duration > 0 then some ((s.duration : ℚ) * av_q2d s.time_base) else dur
    | none => dur
  else dur

/-- Tier 3 of `ff_probe_duration` (ffdecode.c:43-47): frame count over
frame rate, attempted only while `!(dur > 0)`. -/
def probe_tier3 (vs : Option AVStream) (dur : FFloat) : FFloat :=
  if fpos dur = false then
    match vs with
    | some s =>
      if s.nb_frames > 0 then
        if 0 < probe_fps s then some ((s.nb_frames : ℚ) / probe_fps s) else dur
      else dur
    | none => dur
  else dur

/-- Tier 4 of `ff_probe_duration` (ffdecode.c:50-53): file size over bit
rate, attempted only while `!(dur > 0)` and an I/O context exists. -/
def probe_tier4 (fmt : AVFormatContext) (dur : FFloat) : FFloat :=
  if fpos dur = false ∧ fmt.bit_rate > 0 ∧ fmt.pb then
    if fmt.pb_size > 0 then some (((fmt.pb_size * 8 : Int) : ℚ) / (fmt.bit_rate : ℚ))
    else dur
  else dur

/-- `ff_probe_duration` (ffdecode.c:17-57): best-effort fast duration
probe.  Four sequential tiers, each guarded by a `!(dur > 0)` re-test on
the value so far, closed by `return (dur > 0) ? dur : NAN`. -/
def ff_probe_duration (pr : ProbeResult) : FFloat :=
  match pr with
  | .nullPath => none
  | .openFail => none
  | .infoFail => none
  | .ok fmt =>
    let vs := best_video fmt
    posClamp (probe_tier4 fmt (probe_tier3 vs (probe_tier2 vs (probe_tier1 fmt))))

/-- C4's tier cascade as the claim words it: a pure first-match chain —
container duration when positive, else stream duration × time base when
that product is positive, else frame count ÷ frame rate (average
preferred when its numerator is positive, else real) when the count is
positive and the rate positive (frame rates are nonnegative, so "nonzero"
is read as positive), else size × 8 ÷ bit rate when a size is obtainable
and size and bit rate are positive, else unknown. -/
def probe_duration_claim (pr : ProbeResult) : FFloat :=
  match pr with
  | .nullPath => none
  | .openFail => none
  | .infoFail => none
  | .ok fmt =>
    if fmt.duration > 0 then some ((fmt.duration : ℚ) / (AV_TIME_BASE : ℚ))
    else
      let tierD : FFloat :=
        if fmt.pb ∧ fmt.pb_size > 0 ∧ fmt.bit_rate > 0 then
          some (((fmt.pb_size * 8 : Int) : ℚ) / (fmt.bit_rate : ℚ))
        else none
      match best_video fmt with
      | none => tierD
      | some s =>
        let tierB : ℚ := (s.duration : ℚ) * av_q2d s.time_base
        if s.duration > 0 ∧ 0 < tierB then some tierB
        else if s.nb_frames > 0 ∧ 0 < probe_fps s then some ((s.nb_frames : ℚ) / probe_fps s)
        else tierD

/-- `ff_frame_accurate_duration` (ffdecode.c:58-84): frame count divided
by frame rate when both are usable, else stream duration × time base when
the stream duration is not the sentinel, closed by the positivity clamp. -/
def ff_frame_accurate_duration (pr : ProbeResult) : FFloat :=
  match pr with
  | .nullPath => none
  | .openFail => none
  | .infoFail => none
  | .ok fmt =>
    let out : FFloat :=
      match best_video fmt with
      | none => none
      | some s =>
        if (chosen_rate s).num > 0 ∧ (chosen_rate s).den > 0 ∧ s.nb_frames > 0 then
          some ((s.nb_frames : ℚ) * (((chosen_rate s).den : ℚ) / ((chosen_rate s).num : ℚ)))
        else if s.duration ≠ AV_NOPTS_VALUE then
          some ((s.duration : ℚ) * av_q2d s.time_base)
        else none
    posClamp out

/-- C5's description of the frame-accurate duration, as worded: frame
count × (den/num) when the chosen rate has positive numerator and
denominator and the count is positive; else stream duration × time base
whenever the stream duration is known (not the sentinel); else unknown.
No final positivity filter appears in the claim. -/
def frame_accurate_claim (pr : ProbeResult) : FFloat :=
  match pr with
  | .nullPath => none
  | .openFail => none
  | .infoFail => none
  | .ok fmt =>
    match best_video fmt with
    | none => none
    | some s =>
      if (chosen_rate s).num > 0 ∧ (chosen_rate s).den > 0 ∧ s.nb_frames > 0 then
        some ((s.nb_frames : ℚ) * (((chosen_rate s).den : ℚ) / ((chosen_rate s).num : ℚ)))
      else if s.duration ≠ AV_NOPTS_VALUE then
        some ((s.duration : ℚ) * av_q2d s.time_base)
      else none

/-- `ff_format_duration` (ffdecode.c:144-161): container-reported duration
only, no stream-level fallback. -/
def ff_format_duration (pr : ProbeResult) : FFloat :=
  match pr with
  | .nullPath => none
  | .openFail => none
  | .infoFail => none
  | .ok fmt =>
    let dur : FFloat :=
      if fmt.duration > 0 then some ((fmt.duration : ℚ) / (AV_TIME_BASE : ℚ)) else none
    posClamp dur

/-- The four bytes of a 32-bit codec tag, least-significant first, as the
C code writes them into `tagstr[0..3]`. -/
def tagBytes (tag : Nat) : List Nat :=
  [tag % 256, tag / 256 % 256, tag / 65536 % 256, tag / 16777216 % 256]

/-- The C string held in `tagstr`: the tag bytes up to the first NUL. -/
def tagCString (tag : Nat) : List Nat :=
  (tagBytes tag).takeWhile (· ≠ 0)

/-- The bytes of `"nclc"`, the known alternate container tag for NotchLC. -/
def nclcBytes : List Nat := [0x6E, 0x63, 0x6C, 0x63]

/-- `ff_is_notchlc` (ffdecode.c:105-143): tri-state codec identifier.
-1 when the path is NULL, the container cannot be opened, stream info
fails, or there is no video stream; else 1 when the canonical decoder
name is "notchlc" or the nonzero codec tag's C string equals "nclc",
else 0.  (`avcodec_get_name` never returns NULL, so the `name &&` guard
is always taken.) -/
def ff_is_notchlc (pr : ProbeResult) : Int :=
  match pr with
  | .nullPath => -1
  | .openFail => -1
  | .infoFail => -1
  | .ok fmt =>
    match best_video fmt with
    | none => -1
    | some vs =>
      let is_notch : Bool :=
        if vs.codec_name = "notchlc" then true
        else if vs.codec_tag ≠ 0 then decide (tagCString vs.codec_tag = nclcBytes)
        else false
      if is_notch then 1 else 0

/-- C6's description of the identifier, as worded: indeterminate (-1) when
the container cannot be opened, stream info cannot be resolved, or no
video stream exists; match (1) exactly when the canonical decoder name
equals "notchlc" or the four-character tag decodes (as a C string) to
"nclc"; no-match (0) otherwise. -/
def is_notchlc_claim (pr : ProbeResult) : Int :=
  match pr with
  | .nullPath => -1
  | .openFail => -1
  | .infoFail => -1
  | .ok fmt =>
    match best_video fmt with
    | none => -1
    | some vs =>
      if vs.codec_name = "notchlc" ∨ tagCString vs.codec_tag = nclcBytes then 1 else 0

/-- Environment for one `try_seek_to_end` call (ffdecode.c:163-193): the
success of each of the four seek attempts the chain may make, as reported
by the external demuxer. -/
structure SeekEnv where
  generic_ok : Bool
  fmtdur_ok : Bool
  streamdur_ok : Bool
  zero_ok : Bool
deriving DecidableEq, Repr

/-- `try_seek_to_end` (ffdecode.c:163-193): generic max-timestamp seek;
else seek backward from container duration − 1 (rescaled) when the
container duration is positive; else seek backward from the stream's own
duration − 1 when that is known and positive; else seek to zero; else
fail.  Only the success/failure of each attempt is observable here (the
target-tick arithmetic feeds the external seek and is otherwise unused). -/
def try_seek_to_end (fmtdur vsdur : Int) (e : SeekEnv) : Int :=
  if e.generic_ok then 0
  else if fmtdur > 0 ∧ e.fmtdur_ok then 0
  else if vsdur ≠ AV_NOPTS_VALUE ∧ vsdur > 0 ∧ e.streamdur_ok then 0
  else if e.zero_ok then 0
  else -1

/-- One `av_read_frame` outcome inside the precise-duration packet scan:
the return code, and the packet's stream index / pts / dts (meaningful
when the code is nonnegative). -/
structure ScanRead where
  r : Int
  stream_index : Int
  pts : Int
  dts : Int
deriving DecidableEq, Repr

/-- The `while (iter++ < 10000)` packet scan of `ff_precise_duration`
(ffdecode.c:246-256): read forward, stop on any negative read result,
record the pts (else dts) of each packet on the selected video stream.
`reads` is the demuxer's reply to the `i`-th read of this window; the
result is the final `last_ts` and the number of reads performed. -/
def scan_loop (vindex : Int) (reads : Nat → ScanRead) :
    Nat → Nat → Int → Int × Nat
  | 0, _, last => (last, 0)
  | fuel + 1, i, last =>
    let sr := reads i
    if sr.r < 0 then (last, 1)
    else
      let ts : Int :=
        if sr.pts ≠ AV_NOPTS_VALUE then sr.pts
        else if sr.dts ≠ AV_NOPTS_VALUE then sr.dts
        else AV_NOPTS_VALUE
      let last' : Int :=
        if sr.stream_index = vindex ∧ ts ≠ AV_NOPTS_VALUE then ts else last
      let rec_result := scan_loop vindex reads fuel (i + 1) last'
      (rec_result.1, rec_result.2 + 1)

/-- Environment for one look-back window of `ff_precise_duration`: the
seek-chain outcomes, whether `av_packet_alloc` succeeds, and the read
stream for the forward scan.  The step-back re-seek done for nonzero
windows (ffdecode.c:227-240) has its result ignored by the C code and
only moves the demuxer's position, which is already reflected in what
`reads` returns. -/
structure WindowEnv where
  seek : SeekEnv
  alloc_ok : Bool
  reads : Nat → ScanRead

/-- The window loop of `ff_precise_duration` (ffdecode.c:222-260): for
each window, seek near the end (breaking out if the whole chain fails or
the packet allocation fails), scan forward capped at 10000 reads, and
stop as soon as some timestamp has been captured.  `last` threads the
captured timestamp across windows. -/
def windows_loop (vindex fmtdur vsdur : Int) :
    List WindowEnv → Int → Int
  | [], last => last
  | e :: rest, last =>
    if try_seek_to_end fmtdur vsdur e.seek < 0 then last
    else if e.alloc_ok = false then last
    else
      let last' := (scan_loop vindex e.reads 10000 0 last).1
      if last' ≠ AV_NOPTS_VALUE then last'
      else windows_loop vindex fmtdur vsdur rest last'

/-- `ff_precise_duration` (ffdecode.c:195-272): when no video stream
exists, fall back to the container duration; otherwise run the three
look-back windows (0s, 5s, 30s) and pick, in priority order, the last
captured packet timestamp × time base, else the stream duration × time
base when known and positive, else the container duration ÷ the global
time unit when positive; closed by the positivity clamp. -/
def ff_precise_duration (pr : ProbeResult) (w0 w1 w2 : WindowEnv) : FFloat :=
  match pr with
  | .nullPath => none
  | .openFail => none
  | .infoFail => none
  | .ok fmt =>
    match best_video fmt with
    | none =>
      let result : FFloat :=
        if fmt.duration > 0 then some ((fmt.duration : ℚ) / (AV_TIME_BASE : ℚ)) else none
      posClamp result
    | some vs =>
      let tb := vs.time_base
      let last_ts := windows_loop fmt.vindex fmt.duration vs.duration [w0, w1, w2] AV_NOPTS_VALUE
      let result : FFloat :=
        if last_ts ≠ AV_NOPTS_VALUE then some ((last_ts : ℚ) * av_q2d tb)
        else if vs.duration ≠ AV_NOPTS_VALUE ∧ vs.duration > 0 then
          some ((vs.duration : ℚ) * av_q2d tb)
        else if fmt.duration > 0 then some ((fmt.duration : ℚ) / (AV_TIME_BASE : ℚ))
        else none
      posClamp result

/-- The timestamp `ff_precise_duration` has captured after its window
loop (`AV_NOPTS_VALUE` when none, or when probing failed / no stream). -/
def precise_last_ts (pr : ProbeResult) (w0 w1 w2 : WindowEnv) : Int :=
  match pr with
  | .nullPath => AV_NOPTS_VALUE
  | .openFail => AV_NOPTS_VALUE
  | .infoFail => AV_NOPTS_VALUE
  | .ok fmt =>
    match best_video fmt with
    | none => AV_NOPTS_VALUE
    | some vs => windows_loop fmt.vindex fmt.duration vs.duration [w0, w1, w2] AV_NOPTS_VALUE

/-- C7's final-result priority as amended: the cascade the claim states
(last captured timestamp × time base when captured; else stream duration
× time base when known and positive; else container duration ÷ global
time unit when positive; else unknown; container duration directly when
no video stream exists), with the selected value returned only when
strictly positive — a nonpositive selected value yields unknown. -/
def precise_duration_amended (pr : ProbeResult) (w0 w1 w2 : WindowEnv) : FFloat :=
  match pr with
  | .nullPath => none
  | .openFail => none
  | .infoFail => none
  | .ok fmt =>
    match best_video fmt with
    | none =>
      posClamp (if fmt.duration > 0 then some ((fmt.duration : ℚ) / (AV_TIME_BASE : ℚ)) else none)
    | some vs =>
      let last_ts := precise_last_ts pr w0 w1 w2
      posClamp
        (if last_ts ≠ AV_NOPTS_VALUE then some ((last_ts : ℚ) * av_q2d vs.time_base)
         else if vs.duration ≠ AV_NOPTS_VALUE ∧ vs.duration > 0 then
           some ((vs.duration : ℚ) * av_q2d vs.time_base)
         else if fmt.duration > 0 then some ((fmt.duration : ℚ) / (AV_TIME_BASE : ℚ))
         else none)

/-- The best-effort duration out-parameter of `ff_open`
(ffdecode.c:327-335): container duration ÷ global time unit whenever the
container duration is not the sentinel, else stream duration × time base
whenever that is not the sentinel, else NaN.  No positivity guard. -/
def ff_open_duration (fmt_duration vs_duration : Int) (tb : AVRational) : FFloat :=
  if fmt_duration ≠ AV_NOPTS_VALUE then some ((fmt_duration : ℚ) / (AV_TIME_BASE : ℚ))
  else if vs_duration ≠ AV_NOPTS_VALUE then some ((vs_duration : ℚ) * av_q2d tb)
  else none

/-- The memory a live `FFPlayer` session handle points at: which of the
five conditionally-allocated resources are present, and whether the
struct's own allocation is still live (`free` has not yet been called on
it).  `live = false` models the dangling handle left behind by a
completed `ff_close`. -/
structure FFPlayerMem where
  has_sws : Bool
  has_frame : Bool
  has_pkt : Bool
  has_vdec : Bool
  has_fmt : Bool
  live : Bool
deriving DecidableEq, Repr

/-- Observable outcome of one `ff_close` call: nothing happened (NULL
handle), the listed resources were released and the struct freed, or a
fault (reading/freeing an allocation that was already freed — undefined
behaviour in C, modelled as a distinguished outcome). -/
inductive CloseOutcome where
  | noop
  | released (sws frame pkt vdec fmt : Bool)
  | fault
deriving DecidableEq, Repr

/-- `ff_close` (ffdecode.c:350-358): `if (!p) return;` then free the
conversion context, frame, packet, decoder and source when present, then
`free(p)`.  On a handle whose allocation is no longer live, every access
the body makes is a use-after-free, hence `fault`. -/
def ff_close : Option FFPlayerMem → CloseOutcome
  | none => .noop
  | some p =>
    if p.live then .released p.has_sws p.has_frame p.has_pkt p.has_vdec p.has_fmt
    else .fault

/-- The caller's handle after `ff_close` returns: NULL stays NULL; a live
handle still points at the same memory, now freed with all resources
released. -/
def after_close : Option FFPlayerMem → Option FFPlayerMem
  | none => none
  | some _ => some ⟨false, false, false, false, false, false⟩

/-- `AVERROR_EOF` = -MKTAG('E','O','F',' '). -/
def AVERROR_EOF : Int := -541478725

/-- `AVERROR(EAGAIN)` on the target platform (Darwin: EAGAIN = 35). -/
def AVERROR_EAGAIN : Int := -35

/-- One `av_read_frame` outcome inside `ff_next_frame`: the return code
and the packet's stream index (the only packet field the pump inspects —
the packet body is handed to the decoder opaquely). -/
structure ReadStep where
  r : Int
  stream_index : Int
deriving DecidableEq, Repr

/-- One `avcodec_receive_frame` outcome: the return code and, when it
succeeds, the received frame's `best_effort_timestamp`. -/
structure RecvStep where
  r : Int
  best_effort_timestamp : Int
deriving DecidableEq, Repr

/-- The external collaborator's replies to the calls one `ff_next_frame`
invocation makes, each consumed in order: demuxer reads, results of
`avcodec_send_packet(vdec, NULL)` (results of sending a real packet are
stored and never inspected by the C code, so they are not modelled),
receive-frame results, and `CVPixelBufferCreate` successes. -/
structure PumpEnv where
  reads : List ReadStep
  sendNulls : List Int
  recvs : List RecvStep
  allocs : List Bool
deriving Repr

/-- What was fed to the decoder during a call: a real packet, or the NULL
drain marker. -/
inductive Feed where
  | pkt
  | drain
deriving DecidableEq, Repr

/-- Which statement of `ff_next_frame` produced the returned result. -/
inductive Cause where
  | swsFail
  | readErr
  | sendNullErr
  | recvEof
  | recvErr
  | allocFail
  | frameOut
deriving DecidableEq, Repr

/-- Observable outcome of one `ff_next_frame` call: the return code,
whether `*out_ib` holds a buffer at return (it is nulled on entry),
`*out_pts_s`, the session's end-of-input flag at return, the feeds made
to the decoder during the call, and the returning statement. -/
structure NFResult where
  retcode : Int
  out_ib_set : Bool
  out_pts : FFloat
  final_eof : Bool
  fed : List Feed
  cause : Cause
deriving DecidableEq, Repr

/-- Prepend a decoder feed to a call outcome's feed log. -/
def fedCons (f : Feed) (res : NFResult) : NFResult :=
  { res with fed := f :: res.fed }

/-- The receive-and-convert tail of the `ff_next_frame` loop body
(ffdecode.c:395-442), one attempt: either a final result, or the EAGAIN
"need more input" signal sending control back to the top of the loop with
the environment advanced, or the environment ran out of replies. -/
inductive RecvOut where
  | done (res : NFResult)
  | again (env : PumpEnv)
  | stuck
deriving Repr

/-- `avcodec_receive_frame` and the conversion path of `ff_next_frame`
(ffdecode.c:395-442): EAGAIN loops back; `AVERROR_EOF` is normalized to 0
with no buffer; any other negative code is returned verbatim; on success
a pixel buffer is allocated (failure → -3), the frame converted, and the
pts computed from `best_effort_timestamp` × time base (NaN when the
timestamp is the sentinel). -/
def nf_recv (at_eof : Bool) (tb : AVRational) (env : PumpEnv) : RecvOut :=
  match env.recvs with
  | [] => .stuck
  | rc :: rest =>
    let env' := { env with recvs := rest }
    if rc.r = AVERROR_EAGAIN then .again env'
    else if rc.r = AVERROR_EOF then .done ⟨0, false, none, at_eof, [], .recvEof⟩
    else if rc.r < 0 then .done ⟨rc.r, false, none, at_eof, [], .recvErr⟩
    else
      match env'.allocs with
      | [] => .stuck
      | ok :: _ =>
        if ok then
          .done ⟨1, true,
            (if rc.best_effort_timestamp ≠ AV_NOPTS_VALUE then
               some ((rc.best_effort_timestamp : ℚ) * av_q2d tb)
             else none),
            at_eof, [], .frameOut⟩
        else .done ⟨-3, false, none, at_eof, [], .allocFail⟩

/-- The `for (;;)` loop of `ff_next_frame` (ffdecode.c:364-443), fuelled.
While not at end-of-input: read a packet — `AVERROR_EOF` flips the
end-of-input flag and feeds the NULL drain marker (result ignored); any
other negative read code returns verbatim; a packet of another stream is
discarded and the loop retried; a packet of the selected stream is fed.
At end-of-input: feed the NULL marker again, returning its result when
it is negative and not EAGAIN.  Then attempt to receive a frame.
`none` = fuel or environment exhausted (the C loop would still be
running). -/
def nf_loop (vstream : Int) (tb : AVRational) :
    Nat → Bool → PumpEnv → Option NFResult
  | 0, _, _ => none
  | fuel + 1, at_eof, env =>
    if at_eof then
      match env.sendNulls with
      | [] => none
      | r :: rest =>
        let env1 := { env with sendNulls := rest }
        if r < 0 ∧ r ≠ AVERROR_EAGAIN then
          some ⟨r, false, none, true, [.drain], .sendNullErr⟩
        else
          match nf_recv true tb env1 with
          | .done res => some (fedCons .drain res)
          | .again env2 => (nf_loop vstream tb fuel true env2).map (fedCons .drain)
          | .stuck => none
    else
      match env.reads with
      | [] => none
      | rd :: rest =>
        let env1 := { env with reads := rest }
        if rd.r = AVERROR_EOF then
          match env1.sendNulls with
          | [] => none
          | _ :: snrest =>
            let env2 := { env1 with sendNulls := snrest }
            match nf_recv true tb env2 with
            | .done res => some (fedCons .drain res)
            | .again env3 => (nf_loop vstream tb fuel true env3).map (fedCons .drain)
            | .stuck => none
        else if rd.r < 0 then
          some ⟨rd.r, false, none, false, [], .readErr⟩
        else if rd.stream_index ≠ vstream then
          nf_loop vstream tb fuel false env1
        else
          match nf_recv false tb env1 with
          | .done res => some (fedCons .pkt res)
          | .again env2 => (nf_loop vstream tb fuel false env2).map (fedCons .pkt)
          | .stuck => none

/-- `ff_next_frame` (ffdecode.c:360-444): `*out_ib = NULL;` then lazy
conversion-context setup (failure → -2 with the out pointer still null),
then the pump loop.  `sws_ready` is whether the session already holds a
conversion context, `sws_setup_ok` whether `sws_getContext` would
succeed, `at_eof` the session's end-of-input flag on entry. -/
def ff_next_frame (sws_ready sws_setup_ok : Bool) (vstream : Int) (tb : AVRational)
    (fuel : Nat) (at_eof : Bool) (env : PumpEnv) : Option NFResult :=
  if sws_ready = false ∧ sws_setup_ok = false then
    some ⟨-2, false, none, at_eof, [], .swsFail⟩
  else nf_loop vstream tb fuel at_eof env

/-- Invariant tying together the observables of every result `ff_next_frame`
can return: the end-of-stream code 0 arises exactly from the decoder's
fully-drained signal, a pixel buffer is handed out exactly with code 1,
and the only nonnegative codes are 0 and 1. -/
def nfInv (res : NFResult) : Prop :=
  (res.retcode = 0 ↔ res.cause = Cause.recvEof) ∧
  (res.out_ib_set = true ↔ res.retcode = 1) ∧
  (0 ≤ res.retcode → res.retcode = 0 ∨ res.retcode = 1)

theorem posClamp_none : posClamp none = none := rfl

theorem posClamp_some_of_pos {q : ℚ} (h : 0 < q) : posClamp (some q) = some q := by
  simp [posClamp, fpos, h]

theorem posClamp_some_of_nonpos {q : ℚ} (h : ¬ 0 < q) : posClamp (some q) = none := by
  simp [posClamp, fpos, h]

theorem posClamp_pos (x : FFloat) (q : ℚ) (h : posClamp x = some q) : 0 < q := by
  cases x with
  | none => simp [posClamp, fpos] at h
  | some q' =>
    by_cases hq : 0 < q'
    · rw [posClamp_some_of_pos hq] at h
      cases h
      exact hq
    · rw [posClamp_some_of_nonpos hq] at h
      cases h

theorem nfInv_fedCons (f : Feed) (res : NFResult) (h : nfInv res) : nfInv (fedCons f res) := h

theorem nfInv_of (c : Int) (b : Bool) (pts : FFloat) (eof : Bool) (fd : List Feed) (k : Cause)
    (h1 : c = 0 ↔ k = Cause.recvEof) (h2 : b = true ↔ c = 1)
    (h3 : 0 ≤ c → c = 0 ∨ c = 1) :
    nfInv ⟨c, b, pts, eof, fd, k⟩ := ⟨h1, h2, h3⟩

theorem nf_recv_done_inv (at_eof : Bool) (tb : AVRational) (env : PumpEnv) (res : NFResult)
    (h : nf_recv at_eof tb env = .done res) : nfInv res := by
  unfold nf_recv at h
  dsimp only [] at h
  split at h
  · cases h
  · split_ifs at h
    · -- fully drained: the normalized end-of-stream result
      injection h with h
      subst h
      refine nfInv_of _ _ _ _ _ _ ?_ ?_ ?_ <;> (try simp) <;> omega
    · -- other negative receive code, returned verbatim
      injection h with h
      subst h
      refine nfInv_of _ _ _ _ _ _ ?_ ?_ ?_ <;> (try simp) <;> omega
    · -- frame received, best-effort timestamp known
      split at h
      · cases h
      · split_ifs at h
        · injection h with h
          subst h
          refine nfInv_of _ _ _ _ _ _ ?_ ?_ ?_ <;> (try simp) <;> omega
        · injection h with h
          subst h
          refine nfInv_of _ _ _ _ _ _ ?_ ?_ ?_ <;> (try simp) <;> omega
    · -- frame received, best-effort timestamp unknown
      split at h
      · cases h
      · split_ifs at h
        · injection h with h
          subst h
          refine nfInv_of _ _ _ _ _ _ ?_ ?_ ?_ <;> (try simp) <;> omega
        · injection h with h
          subst h
          refine nfInv_of _ _ _ _ _ _ ?_ ?_ ?_ <;> (try simp) <;> omega

theorem nf_loop_some_inv (vstream : Int) (tb : AVRational) :
    ∀ (fuel : Nat) (at_eof : Bool) (env : PumpEnv) (res : NFResult),
      nf_loop vstream tb fuel at_eof env = some res → nfInv res := by
  intro fuel
  induction fuel with
  | zero =>
    intro at_eof env res h
    simp [nf_loop] at h
  | succ n ih =>
    intro at_eof env res h
    rw [nf_loop] at h
    dsimp only [] at h
    split_ifs at h with hae
    · -- already at end-of-input: keep draining
      split at h
      · cases h
      · rename_i r rest
        split_ifs at h with hr
        · injection h with h
          subst h
          refine nfInv_of _ _ _ _ _ _ ?_ ?_ ?_ <;> (try simp) <;> omega
        · split at h
          · rename_i res' hrc
            injection h with h
            subst h
            exact nfInv_fedCons _ _ (nf_recv_done_inv _ _ _ _ hrc)
          · rename_i env2 hrc
            rcases Option.map_eq_some'.mp h with ⟨res'', hres'', heq⟩
            subst heq
            exact nfInv_fedCons _ _ (ih _ _ _ hres'')
          · cases h
    · -- still reading packets
      split at h
      · cases h
      · rename_i rd rest
        split_ifs at h with h1 h2 h3
        · -- read returned AVERROR_EOF: flip flag, drain, receive
          split at h
          · cases h
          · split at h
            · rename_i res' hrc
              injection h with h
              subst h
              exact nfInv_fedCons _ _ (nf_recv_done_inv _ _ _ _ hrc)
            · rename_i env3 hrc
              rcases Option.map_eq_some'.mp h with ⟨res'', hres'', heq⟩
              subst heq
              exact nfInv_fedCons _ _ (ih _ _ _ hres'')
            · cases h
        · -- read error propagated verbatim
          injection h with h
          subst h
          refine nfInv_of _ _ _ _ _ _ ?_ ?_ ?_ <;> (try simp) <;> omega
        · -- foreign-stream packet discarded
          exact ih _ _ _ h
        · -- selected-stream packet fed, then receive
          split at h
          · rename_i res' hrc
            injection h with h
            subst h
            exact nfInv_fedCons _ _ (nf_recv_done_inv _ _ _ _ hrc)
          · rename_i env2 hrc
            rcases Option.map_eq_some'.mp h with ⟨res'', hres'', heq⟩
            subst heq
            exact nfInv_fedCons _ _ (ih _ _ _ hres'')
          · cases h

/-- C1 counterexample: the claim includes the best-effort duration
out-parameter of `ff_open` among the operations that return NaN or a
strictly positive value, but `ff_open` guards only against the
`AV_NOPTS_VALUE` sentinel: a container reporting duration 0 makes it
write a known, zero duration. -/
theorem C1_open_duration_counterexample :
    ff_open_duration 0 0 ⟨1, 1⟩ = some 0 ∧
    ¬ ∀ q : ℚ, ff_open_duration 0 0 ⟨1, 1⟩ = some q → 0 < q := by
  have h0 : ff_open_duration 0 0 ⟨1, 1⟩ = some 0 := by
    norm_num [ff_open_duration, AV_NOPTS_VALUE]
  refine ⟨h0, fun hall => absurd (hall 0 h0) (by norm_num)⟩

/-- C1 (amended): the four duration-returning estimator entry points
(fast probe, frame-accurate, format-only, precise) return either the
unknown sentinel or a strictly positive seconds value; the claim's
further assertion about `ff_open`'s duration out-parameter is dropped
(see the counterexample). -/
theorem C1_estimators_known_positive :
    ∀ (pr : ProbeResult) (w0 w1 w2 : WindowEnv) (q : ℚ),
      (ff_probe_duration pr = some q → 0 < q) ∧
      (ff_frame_accurate_duration pr = some q → 0 < q) ∧
      (ff_format_duration pr = some q → 0 < q) ∧
      (ff_precise_duration pr w0 w1 w2 = some q → 0 < q) := by
  intro pr w0 w1 w2 q
  refine ⟨?_, ?_, ?_, ?_⟩ <;> intro h
  · cases pr with
    | ok fmt => exact posClamp_pos _ _ h
    | nullPath => simp [ff_probe_duration] at h
    | openFail => simp [ff_probe_duration] at h
    | infoFail => simp [ff_probe_duration] at h
  · cases pr with
    | ok fmt => exact posClamp_pos _ _ h
    | nullPath => simp [ff_frame_accurate_duration] at h
    | openFail => simp [ff_frame_accurate_duration] at h
    | infoFail => simp [ff_frame_accurate_duration] at h
  · cases pr with
    | ok fmt => exact posClamp_pos _ _ h
    | nullPath => simp [ff_format_duration] at h
    | openFail => simp [ff_format_duration] at h
    | infoFail => simp [ff_format_duration] at h
  · cases pr with
    | ok fmt =>
      cases hbv : best_video fmt with
      | none =>
        simp only [ff_precise_duration, hbv] at h
        exact posClamp_pos _ _ h
      | some vs =>
        simp only [ff_precise_duration, hbv] at h
        exact posClamp_pos _ _ h
    | nullPath => simp [ff_precise_duration] at h
    | openFail => simp [ff_precise_duration] at h
    | infoFail => simp [ff_precise_duration] at h

/-- C1 witness: a container whose metadata makes all four estimators
report exactly one (strictly positive) second. -/
theorem C1_estimators_known_positive_witness :
    ff_probe_duration (.ok ⟨1000000, 0, false, 0, [⟨⟨1, 1⟩, 5, 30, ⟨30, 1⟩, ⟨30, 1⟩, "h264", 0⟩], 0⟩) = some 1 ∧
    (0 : ℚ) < 1 := by
  have hev : ff_probe_duration
      (.ok ⟨1000000, 0, false, 0, [⟨⟨1, 1⟩, 5, 30, ⟨30, 1⟩, ⟨30, 1⟩, "h264", 0⟩], 0⟩) = some 1 := by
    norm_num [ff_probe_duration, probe_tier1, probe_tier2, probe_tier3, probe_tier4,
      best_video, fpos, posClamp, av_q2d, AV_TIME_BASE]
  exact ⟨hev,
    (C1_estimators_known_positive
      (.ok ⟨1000000, 0, false, 0, [⟨⟨1, 1⟩, 5, 30, ⟨30, 1⟩, ⟨30, 1⟩, "h264", 0⟩], 0⟩)
      ⟨⟨true, true, true, true⟩, true, fun _ => ⟨-1, 0, 0, 0⟩⟩
      ⟨⟨true, true, true, true⟩, true, fun _ => ⟨-1, 0, 0, 0⟩⟩
      ⟨⟨true, true, true, true⟩, true, fun _ => ⟨-1, 0, 0, 0⟩⟩ 1).1 hev⟩

/-- C2: an `ff_next_frame` call returns the end-of-stream code 0 exactly
when the decoder reported fully drained (`avcodec_receive_frame` gave
`AVERROR_EOF`), and then the out image-buffer pointer is null; moreover
every result is a frame (1), end-of-stream (0), or a negative error, so
end-of-stream is the only non-error way a sequence of calls on a session
terminates. -/
theorem C2_drain_is_sole_end_of_stream (sws_ready sws_setup_ok : Bool) (vstream : Int)
    (tb : AVRational) (fuel : Nat) (at_eof : Bool) (env : PumpEnv) (res : NFResult)
    (h : ff_next_frame sws_ready sws_setup_ok vstream tb fuel at_eof env = some res) :
    (res.retcode = 0 ↔ res.cause = Cause.recvEof) ∧
    (res.retcode = 0 → res.out_ib_set = false) ∧
    (0 ≤ res.retcode → res.retcode = 0 ∨ res.retcode = 1) := by
  unfold ff_next_frame at h
  split_ifs at h with hsw
  · injection h with h
    subst h
    refine ⟨by simp, by simp, by norm_num⟩
  · obtain ⟨h1, h2, h3⟩ := nf_loop_some_inv vstream tb fuel at_eof env res h
    refine ⟨h1, ?_, h3⟩
    intro h0
    cases hb : res.out_ib_set
    · rfl
    · exact absurd (h2.mp hb) (by omega)

/-- C2 witness: a session whose source immediately signals end-of-input
and whose decoder drains at once yields result 0, a null out buffer, and
the drain cause. -/
theorem C2_drain_is_sole_end_of_stream_witness :
    ((⟨0, false, none, true, [Feed.drain], Cause.recvEof⟩ : NFResult).retcode = 0 ↔
      (⟨0, false, none, true, [Feed.drain], Cause.recvEof⟩ : NFResult).cause = Cause.recvEof) ∧
    ((⟨0, false, none, true, [Feed.drain], Cause.recvEof⟩ : NFResult).retcode = 0 →
      (⟨0, false, none, true, [Feed.drain], Cause.recvEof⟩ : NFResult).out_ib_set = false) ∧
    (0 ≤ (⟨0, false, none, true, [Feed.drain], Cause.recvEof⟩ : NFResult).retcode →
      (⟨0, false, none, true, [Feed.drain], Cause.recvEof⟩ : NFResult).retcode = 0 ∨
      (⟨0, false, none, true, [Feed.drain], Cause.recvEof⟩ : NFResult).retcode = 1) :=
  C2_drain_is_sole_end_of_stream true true 0 ⟨1, 1⟩ 1 false
    ⟨[⟨AVERROR_EOF, 0⟩], [0], [⟨AVERROR_EOF, 0⟩], []⟩
    ⟨0, false, none, true, [Feed.drain], Cause.recvEof⟩ (by decide)

/-- C3 counterexample: calling `ff_close` a second time on the same
non-null handle after a completed close hits an already-freed
allocation — a double free, not a no-op. -/
theorem C3_close_counterexample :
    ff_close (after_close (some ⟨true, true, true, true, true, true⟩)) = CloseOutcome.fault ∧
    CloseOutcome.fault ≠ CloseOutcome.noop := by
  decide

/-- C3 (amended): closing a null session is a no-op, and closing a live
session releases the conversion context, frame/packet buffers, decoder
and source; but close is not idempotent on the handle itself — a second
close of the same non-null handle is a double free (fault), so only the
null-handle path makes repeated closing safe. -/
theorem C3_close_amended :
    ff_close (none : Option FFPlayerMem) = CloseOutcome.noop ∧
    ∀ p : FFPlayerMem, p.live = true →
      ff_close (some p) =
        CloseOutcome.released p.has_sws p.has_frame p.has_pkt p.has_vdec p.has_fmt ∧
      ff_close (after_close (some p)) = CloseOutcome.fault := by
  refine ⟨rfl, fun p hp => ⟨?_, rfl⟩⟩
  simp [ff_close, hp]

/-- C3 witness: a fully-populated live session. -/
theorem C3_close_amended_witness :
    ff_close (some ⟨true, true, true, true, true, true⟩) =
      CloseOutcome.released true true true true true ∧
    ff_close (after_close (some ⟨true, true, true, true, true, true⟩)) = CloseOutcome.fault :=
  C3_close_amended.2 ⟨true, true, true, true, true, true⟩ rfl

/-- C8: when the next pull from the source fails with a negative code
that is not the end-of-input signal, `ff_next_frame` returns that code
verbatim, feeds neither a packet nor a drain marker to the decoder, and
leaves the end-of-input flag unchanged (and the out buffer null). -/
theorem C8_read_error_verbatim (sws_ready sws_setup_ok : Bool) (vstream : Int)
    (tb : AVRational) (fuel : Nat) (env : PumpEnv) (rd : ReadStep) (rest : List ReadStep)
    (hsws : sws_ready = true ∨ sws_setup_ok = true)
    (hr : env.reads = rd :: rest) (hneg : rd.r < 0) (hnoteof : rd.r ≠ AVERROR_EOF) :
    ff_next_frame sws_ready sws_setup_ok vstream tb (fuel + 1) false env =
      some ⟨rd.r, false, none, false, [], Cause.readErr⟩ := by
  have hsw : ¬(sws_ready = false ∧ sws_setup_ok = false) := by
    rcases hsws with h | h <;> simp [h]
  unfold ff_next_frame
  rw [if_neg hsw, nf_loop, if_neg Bool.false_ne_true, hr]
  dsimp only []
  rw [if_neg hnoteof, if_pos hneg]

/-- C8 witness: a source whose first read fails with -5. -/
theorem C8_read_error_verbatim_witness :
    ff_next_frame true true 0 ⟨1, 1⟩ 1 false ⟨[⟨-5, 0⟩], [], [], []⟩ =
      some ⟨-5, false, none, false, [], Cause.readErr⟩ :=
  C8_read_error_verbatim true true 0 ⟨1, 1⟩ 0 ⟨[⟨-5, 0⟩], [], [], []⟩ ⟨-5, 0⟩ []
    (Or.inl rfl) rfl (by decide) (by decide)

/-- C10: `ff_next_frame` nulls the out image-buffer pointer before any
work, so on every return other than the produced-a-frame result 1 —
conversion-setup failure, buffer-allocation failure, propagated read or
decode errors, and end-of-stream — the out pointer is still null. -/
theorem C10_no_buffer_without_frame (sws_ready sws_setup_ok : Bool) (vstream : Int)
    (tb : AVRational) (fuel : Nat) (at_eof : Bool) (env : PumpEnv) (res : NFResult)
    (h : ff_next_frame sws_ready sws_setup_ok vstream tb fuel at_eof env = some res)
    (hne : res.retcode ≠ 1) : res.out_ib_set = false := by
  unfold ff_next_frame at h
  split_ifs at h with hsw
  · injection h with h
    subst h
    rfl
  · obtain ⟨_, h2, _⟩ := nf_loop_some_inv vstream tb fuel at_eof env res h
    cases hb : res.out_ib_set
    · rfl
    · exact absurd (h2.mp hb) hne

/-- C10 witness: a failed pixel-buffer allocation returns -3 with a null
out buffer. -/
theorem C10_no_buffer_without_frame_witness :
    (⟨-3, false, none, false, [Feed.pkt], Cause.allocFail⟩ : NFResult).out_ib_set = false :=
  C10_no_buffer_without_frame true true 0 ⟨1, 1⟩ 1 false
    ⟨[⟨0, 0⟩], [], [⟨0, 5⟩], [false]⟩
    ⟨-3, false, none, false, [Feed.pkt], Cause.allocFail⟩ (by decide) (by decide)

/-- C6: the codec identifier returns indeterminate (-1) when the
container cannot be opened, stream info cannot be resolved, or no video
stream exists; match (1) exactly when the canonical decoder name is
"notchlc" or the four-character container tag decodes (as a C string) to
"nclc"; no-match (0) for any other identifiable codec. -/
theorem C6_is_notchlc_tristate : ∀ pr : ProbeResult, ff_is_notchlc pr = is_notchlc_claim pr := by
  intro pr
  cases pr with
  | nullPath => rfl
  | openFail => rfl
  | infoFail => rfl
  | ok fmt =>
    cases hbv : best_video fmt with
    | none => simp [ff_is_notchlc, is_notchlc_claim, hbv]
    | some vs =>
      simp only [ff_is_notchlc, is_notchlc_claim, hbv]
      by_cases hname : vs.codec_name = "notchlc"
      · simp [hname]
      · by_cases htag : vs.codec_tag = 0
        · have hnc : ¬ tagCString 0 = nclcBytes := by decide
          simp [hname, htag, hnc]
        · by_cases hm : tagCString vs.codec_tag = nclcBytes
          · simp [hname, htag, hm]
          · simp [hname, htag, hm]

/-- C5 counterexample: a stream with a valid (30/1) average frame rate,
zero reported frame count and a *known but zero* stream duration.  The
claim requires the stream-duration fallback (0 × time base = 0) to be
returned; the code's final positivity clamp returns the unknown sentinel
instead. -/
theorem C5_frame_accurate_counterexample :
    ff_frame_accurate_duration
        (.ok ⟨0, 0, false, 0, [⟨⟨1, 1⟩, 0, 0, ⟨30, 1⟩, ⟨30, 1⟩, "h264", 0⟩], 0⟩) = none ∧
    frame_accurate_claim
        (.ok ⟨0, 0, false, 0, [⟨⟨1, 1⟩, 0, 0, ⟨30, 1⟩, ⟨30, 1⟩, "h264", 0⟩], 0⟩) = some 0 := by
  constructor <;>
    norm_num [ff_frame_accurate_duration, frame_accurate_claim, best_video, chosen_rate,
      posClamp, fpos, av_q2d, AV_NOPTS_VALUE]

/-- C5 (amended): with the selected frame rate (average preferred, else
real) having positive numerator and denominator and a positive frame
count, `ff_frame_accurate_duration` returns frame count × (den/num);
otherwise, when the stream duration is known AND the product stream
duration × time base is strictly positive, it returns that product; a
known but nonpositive product yields the unknown sentinel. -/
theorem C5_frame_accurate_amended (fmt : AVFormatContext) (s : AVStream)
    (hbv : best_video fmt = some s) :
    ((chosen_rate s).num > 0 → (chosen_rate s).den > 0 → s.nb_frames > 0 →
      ff_frame_accurate_duration (.ok fmt) =
        some ((s.nb_frames : ℚ) * (((chosen_rate s).den : ℚ) / ((chosen_rate s).num : ℚ)))) ∧
    (¬((chosen_rate s).num > 0 ∧ (chosen_rate s).den > 0 ∧ s.nb_frames > 0) →
      s.duration ≠ AV_NOPTS_VALUE →
      0 < (s.duration : ℚ) * av_q2d s.time_base →
      ff_frame_accurate_duration (.ok fmt) =
        some ((s.duration : ℚ) * av_q2d s.time_base)) ∧
    (¬((chosen_rate s).num > 0 ∧ (chosen_rate s).den > 0 ∧ s.nb_frames > 0) →
      s.duration ≠ AV_NOPTS_VALUE →
      ¬ 0 < (s.duration : ℚ) * av_q2d s.time_base →
      ff_frame_accurate_duration (.ok fmt) = none) := by
  refine ⟨?_, ?_, ?_⟩
  · intro h1 h2 h3
    have hval : (0 : ℚ) < (s.nb_frames : ℚ) * (((chosen_rate s).den : ℚ) / ((chosen_rate s).num : ℚ)) :=
      mul_pos (by exact_mod_cast h3) (div_pos (by exact_mod_cast h2) (by exact_mod_cast h1))
    simp only [ff_frame_accurate_duration, hbv]
    rw [if_pos ⟨h1, h2, h3⟩, posClamp_some_of_pos hval]
  · intro hno hknown hpos
    simp only [ff_frame_accurate_duration, hbv]
    rw [if_neg hno, if_pos hknown, posClamp_some_of_pos hpos]
  · intro hno hknown hnonpos
    simp only [ff_frame_accurate_duration, hbv]
    rw [if_neg hno, if_pos hknown, posClamp_some_of_nonpos hnonpos]

/-- C5 witness: a 30 fps stream with 30 frames yields 30 × (1/30)
seconds through the frame-count branch. -/
theorem C5_frame_accurate_amended_witness :
    ff_frame_accurate_duration
        (.ok ⟨0, 0, false, 0, [⟨⟨1, 1⟩, 5, 30, ⟨30, 1⟩, ⟨30, 1⟩, "h264", 0⟩], 0⟩) =
      some ((((30 : Int) : ℚ)) * (((1 : Int) : ℚ) / ((30 : Int) : ℚ))) :=
  (C5_frame_accurate_amended ⟨0, 0, false, 0, [⟨⟨1, 1⟩, 5, 30, ⟨30, 1⟩, ⟨30, 1⟩, "h264", 0⟩], 0⟩
      ⟨⟨1, 1⟩, 5, 30, ⟨30, 1⟩, ⟨30, 1⟩, "h264", 0⟩ (by decide)).1
    (by decide) (by decide) (by decide)

theorem scan_loop_count_le (vindex : Int) (reads : Nat → ScanRead) :
    ∀ (fuel i : Nat) (last : Int), (scan_loop vindex reads fuel i last).2 ≤ fuel := by
  intro fuel
  induction fuel with
  | zero => intro i last; simp [scan_loop]
  | succ n ih =>
    intro i last
    rw [scan_loop]
    dsimp only []
    by_cases h : (reads i).r < 0
    · rw [if_pos h]
      omega
    · rw [if_neg h]
      simpa using Nat.succ_le_succ (ih (i + 1) _)

/-- C9: every forward packet scan in `ff_precise_duration` performs at
most 10000 reads (so the scan terminates even on corrupt or unbounded
inputs), and the look-back window iteration stops as soon as any packet
timestamp has been captured: once the first window's scan captures a
timestamp, the remaining windows are never executed. -/
theorem C9_scan_cap_and_window_stop :
    (∀ (vindex : Int) (reads : Nat → ScanRead) (i : Nat) (last : Int),
       (scan_loop vindex reads 10000 i last).2 ≤ 10000) ∧
    (∀ (vindex fmtdur vsdur : Int) (e : WindowEnv) (rest : List WindowEnv) (last : Int),
       (scan_loop vindex e.reads 10000 0 last).1 ≠ AV_NOPTS_VALUE →
       windows_loop vindex fmtdur vsdur (e :: rest) last =
         windows_loop vindex fmtdur vsdur [e] last) := by
  constructor
  · intro vindex reads i last
    exact scan_loop_count_le vindex reads 10000 i last
  · intro vindex fmtdur vsdur e rest last hcap
    by_cases h1 : try_seek_to_end fmtdur vsdur e.seek < 0
    · simp only [windows_loop]
      rw [if_pos h1, if_pos h1]
    · by_cases h2 : e.alloc_ok = false
      · simp only [windows_loop]
        rw [if_neg h1, if_neg h1, if_pos h2, if_pos h2]
      · simp only [windows_loop]
        rw [if_neg h1, if_neg h1, if_neg h2, if_neg h2, if_pos hcap, if_pos hcap]

/-- C9 witness: a window whose first read carries timestamp 7 captures
it, and the window list beyond the first window is irrelevant. -/
theorem C9_scan_cap_and_window_stop_witness :
    (scan_loop 0 (fun _ => ⟨-1, 0, 0, 0⟩) 10000 0 AV_NOPTS_VALUE).2 ≤ 10000 ∧
    windows_loop 0 0 0
        [⟨⟨true, true, true, true⟩, true, fun i => if i = 0 then ⟨0, 0, 7, 7⟩ else ⟨-1, 0, 0, 0⟩⟩,
         ⟨⟨false, false, false, false⟩, false, fun _ => ⟨-1, 0, 0, 0⟩⟩] AV_NOPTS_VALUE =
      windows_loop 0 0 0
        [⟨⟨true, true, true, true⟩, true, fun i => if i = 0 then ⟨0, 0, 7, 7⟩ else ⟨-1, 0, 0, 0⟩⟩]
        AV_NOPTS_VALUE :=
  ⟨C9_scan_cap_and_window_stop.1 0 (fun _ => ⟨-1, 0, 0, 0⟩) 0 AV_NOPTS_VALUE,
   C9_scan_cap_and_window_stop.2 0 0 0
     ⟨⟨true, true, true, true⟩, true, fun i => if i = 0 then ⟨0, 0, 7, 7⟩ else ⟨-1, 0, 0, 0⟩⟩
     [⟨⟨false, false, false, false⟩, false, fun _ => ⟨-1, 0, 0, 0⟩⟩] AV_NOPTS_VALUE (by decide)⟩

/-- C7 counterexample: the first window's scan captures packet timestamp
0 (a real pts at the very start of the stream), so the claim requires
the result `0 × time base = 0`; the code's final positivity clamp
returns the unknown sentinel instead. -/
theorem C7_precise_counterexample :
    precise_last_ts
        (.ok ⟨AV_NOPTS_VALUE, 0, false, 0, [⟨⟨1, 1⟩, AV_NOPTS_VALUE, 0, ⟨30, 1⟩, ⟨30, 1⟩, "h264", 0⟩], 0⟩)
        ⟨⟨true, true, true, true⟩, true, fun i => if i = 0 then ⟨0, 0, 0, 0⟩ else ⟨-1, 0, 0, 0⟩⟩
        ⟨⟨true, true, true, true⟩, true, fun _ => ⟨-1, 0, 0, 0⟩⟩
        ⟨⟨true, true, true, true⟩, true, fun _ => ⟨-1, 0, 0, 0⟩⟩ = 0 ∧
    ff_precise_duration
        (.ok ⟨AV_NOPTS_VALUE, 0, false, 0, [⟨⟨1, 1⟩, AV_NOPTS_VALUE, 0, ⟨30, 1⟩, ⟨30, 1⟩, "h264", 0⟩], 0⟩)
        ⟨⟨true, true, true, true⟩, true, fun i => if i = 0 then ⟨0, 0, 0, 0⟩ else ⟨-1, 0, 0, 0⟩⟩
        ⟨⟨true, true, true, true⟩, true, fun _ => ⟨-1, 0, 0, 0⟩⟩
        ⟨⟨true, true, true, true⟩, true, fun _ => ⟨-1, 0, 0, 0⟩⟩ = none ∧
    (none : FFloat) ≠ some (((0 : Int) : ℚ) * av_q2d ⟨1, 1⟩) := by
  have hbv : best_video
      ⟨AV_NOPTS_VALUE, 0, false, 0, [⟨⟨1, 1⟩, AV_NOPTS_VALUE, 0, ⟨30, 1⟩, ⟨30, 1⟩, "h264", 0⟩], 0⟩ =
      some ⟨⟨1, 1⟩, AV_NOPTS_VALUE, 0, ⟨30, 1⟩, ⟨30, 1⟩, "h264", 0⟩ := by decide
  have hlast : windows_loop 0 AV_NOPTS_VALUE AV_NOPTS_VALUE
      [⟨⟨true, true, true, true⟩, true, fun i => if i = 0 then ⟨0, 0, 0, 0⟩ else ⟨-1, 0, 0, 0⟩⟩,
       ⟨⟨true, true, true, true⟩, true, fun _ => ⟨-1, 0, 0, 0⟩⟩,
       ⟨⟨true, true, true, true⟩, true, fun _ => ⟨-1, 0, 0, 0⟩⟩] AV_NOPTS_VALUE = 0 := by
    decide
  refine ⟨?_, ?_, by simp⟩
  · simp only [precise_last_ts, hbv]
    exact hlast
  · simp only [ff_precise_duration, hbv]
    rw [hlast]
    norm_num [posClamp, fpos, av_q2d, AV_NOPTS_VALUE]

/-- C7 (amended): `ff_precise_duration`'s result follows the claimed
priority — last captured packet timestamp × time base when a window scan
captured one, else stream duration × time base when known and positive,
else container duration ÷ the global time unit when positive, else
unknown; with container duration directly when no video stream exists —
except that the selected value is returned only when strictly positive:
a nonpositive selected value yields the unknown sentinel. -/
theorem C7_precise_priority_amended :
    ∀ (pr : ProbeResult) (w0 w1 w2 : WindowEnv),
      ff_precise_duration pr w0 w1 w2 = precise_duration_amended pr w0 w1 w2 := by
  intro pr w0 w1 w2
  cases pr with
  | nullPath => rfl
  | openFail => rfl
  | infoFail => rfl
  | ok fmt =>
    cases hbv : best_video fmt with
    | none => simp only [ff_precise_duration, precise_duration_amended, hbv]
    | some vs => simp only [ff_precise_duration, precise_duration_amended, precise_last_ts, hbv]

theorem probe_tier2_skip (vs : Option AVStream) (dur : FFloat) (h : fpos dur = true) :
    probe_tier2 vs dur = dur := by
  simp [probe_tier2, h]

theorem probe_tier3_skip (vs : Option AVStream) (dur : FFloat) (h : fpos dur = true) :
    probe_tier3 vs dur = dur := by
  simp [probe_tier3, h]

theorem probe_tier4_skip (fmt : AVFormatContext) (dur : FFloat) (h : fpos dur = true) :
    probe_tier4 fmt dur = dur := by
  simp [probe_tier4, h]

theorem probe_tier4_end (fmt : AVFormatContext) (dur : FFloat)
    (hfp : fpos dur = false) (hcl : posClamp dur = none) :
    posClamp (probe_tier4 fmt dur) =
      if fmt.pb ∧ fmt.pb_size > 0 ∧ fmt.bit_rate > 0 then
        some (((fmt.pb_size * 8 : Int) : ℚ) / (fmt.bit_rate : ℚ))
      else none := by
  unfold probe_tier4
  by_cases hbr : fmt.bit_rate > 0
  · by_cases hpb : fmt.pb = true
    · rw [if_pos ⟨hfp, hbr, hpb⟩]
      by_cases hsz : fmt.pb_size > 0
      · have hv : (0 : ℚ) < ((fmt.pb_size * 8 : Int) : ℚ) / (fmt.bit_rate : ℚ) :=
          div_pos (by exact_mod_cast (by omega : (0 : Int) < fmt.pb_size * 8))
            (by exact_mod_cast hbr)
        rw [if_pos hsz, posClamp_some_of_pos hv, if_pos ⟨hpb, hsz, hbr⟩]
      · rw [if_neg hsz, hcl, if_neg (by tauto)]
    · rw [if_neg (by tauto), hcl, if_neg (by tauto)]
  · rw [if_neg (by tauto), hcl, if_neg (by tauto)]

theorem probe_tail_eq (fmt : AVFormatContext) (s : AVStream) (dur : FFloat)
    (hfp : fpos dur = false) (hcl : posClamp dur = none) :
    posClamp (probe_tier4 fmt (probe_tier3 (some s) dur)) =
      if s.nb_frames > 0 ∧ 0 < probe_fps s then some ((s.nb_frames : ℚ) / probe_fps s)
      else if fmt.pb ∧ fmt.pb_size > 0 ∧ fmt.bit_rate > 0 then
        some (((fmt.pb_size * 8 : Int) : ℚ) / (fmt.bit_rate : ℚ))
      else none := by
  unfold probe_tier3
  rw [if_pos hfp]
  dsimp only []
  by_cases hnb : s.nb_frames > 0
  · rw [if_pos hnb]
    by_cases hfps : 0 < probe_fps s
    · have hv : (0 : ℚ) < (s.nb_frames : ℚ) / probe_fps s :=
        div_pos (by exact_mod_cast hnb) hfps
      have hfpt : fpos (some ((s.nb_frames : ℚ) / probe_fps s)) = true := by
        simp [fpos, hv]
      rw [if_pos hfps, probe_tier4_skip _ _ hfpt, posClamp_some_of_pos hv, if_pos ⟨hnb, hfps⟩]
    · rw [if_neg hfps, probe_tier4_end fmt dur hfp hcl,
        if_neg (show ¬(s.nb_frames > 0 ∧ 0 < probe_fps s) by tauto)]
  · rw [if_neg hnb, probe_tier4_end fmt dur hfp hcl,
      if_neg (show ¬(s.nb_frames > 0 ∧ 0 < probe_fps s) by tauto)]

/-- C4: the fast duration probe returns the first applicable tier, in
order — container duration ÷ the global time unit when positive; else
the selected stream's duration × its time base when the reported
duration and the resulting product are positive; else frame count ÷
frame rate (average preferred, else real; the rate read as positive)
when the frame count is positive; else file size × 8 ÷ container bit
rate when an I/O context exists and size and bit rate are positive; else
the unknown sentinel. -/
theorem C4_probe_duration_tiers : ∀ pr : ProbeResult, ff_probe_duration pr = probe_duration_claim pr := by
  intro pr
  cases pr with
  | nullPath => rfl
  | openFail => rfl
  | infoFail => rfl
  | ok fmt =>
    simp only [ff_probe_duration, probe_duration_claim]
    by_cases hd : fmt.duration > 0
    · have hv1 : (0 : ℚ) < (fmt.duration : ℚ) / (AV_TIME_BASE : ℚ) :=
        div_pos (by exact_mod_cast hd) (by norm_num [AV_TIME_BASE])
      have ht1 : probe_tier1 fmt = some ((fmt.duration : ℚ) / (AV_TIME_BASE : ℚ)) := by
        simp [probe_tier1, hd]
      have hfp : fpos (probe_tier1 fmt) = true := by
        rw [ht1]; simp [fpos, hv1]
      rw [probe_tier2_skip _ _ hfp, probe_tier3_skip _ _ hfp, probe_tier4_skip _ _ hfp, ht1,
        posClamp_some_of_pos hv1, if_pos hd]
    · have ht1 : probe_tier1 fmt = none := by simp [probe_tier1, hd]
      rw [if_neg hd, ht1]
      cases hbv : best_video fmt with
      | none =>
        have h2 : probe_tier2 none none = none := by simp [probe_tier2]
        have h3 : probe_tier3 none none = none := by simp [probe_tier3]
        rw [h2, h3, probe_tier4_end fmt none rfl rfl]
      | some s =>
        dsimp only []
        by_cases hsd : s.duration > 0
        · have h2 : probe_tier2 (some s) none =
              some ((s.duration : ℚ) * av_q2d s.time_base) := by
            simp [probe_tier2, fpos, hsd]
          rw [h2]
          by_cases htb : 0 < (s.duration : ℚ) * av_q2d s.time_base
          · have hfp2 : fpos (some ((s.duration : ℚ) * av_q2d s.time_base)) = true := by
              simp [fpos, htb]
            rw [probe_tier3_skip _ _ hfp2, probe_tier4_skip _ _ hfp2,
              posClamp_some_of_pos htb, if_pos ⟨hsd, htb⟩]
          · have hfp2 : fpos (some ((s.duration : ℚ) * av_q2d s.time_base)) = false := by
              simp [fpos, htb]
            rw [if_neg (show ¬(s.duration > 0 ∧ 0 < (s.duration : ℚ) * av_q2d s.time_base) by
              tauto)]
            exact probe_tail_eq fmt s _ hfp2 (posClamp_some_of_nonpos htb)
        · have h2 : probe_tier2 (some s) none = none := by simp [probe_tier2, fpos, hsd]
          rw [h2, if_neg (show ¬(s.duration > 0 ∧ 0 < (s.duration : ℚ) * av_q2d s.time_base) by
            tauto)]
          exact probe_tail_eq fmt s none rfl rfl

end NotchPlayer
